import Mathlib

/-!
Shallow embedding of the before/after image-comparison slider
(`src/src/components/ui/image-slider.tsx`), the lazy-mount wrapper
(`src/src/components/ui/LazySection.tsx`) and the optimized-image component
(second part of `image-slider.tsx`), together with proofs about their
specified behaviour.

JavaScript numbers are modelled as exact rationals extended with the three
non-finite values `NaN`, `+Infinity` and `-Infinity`, which is enough to
capture the division-by-zero behaviour of
`Math.max(0, Math.min(100, (x / rect.width) * 100))` exactly.
-/

namespace ImageSliderSpec

/-- A JavaScript number, as far as the slider arithmetic needs it:
either a finite value (modelled exactly as a rational) or one of the
non-finite IEEE values `NaN`, `+Infinity`, `-Infinity`. -/
inductive JSNum where
  | nan : JSNum
  | posInf : JSNum
  | negInf : JSNum
  | fin : ℚ → JSNum
deriving DecidableEq

/-- JavaScript division `x / y` of two finite numbers: `0/0` is `NaN`,
`x/0` is `±Infinity` according to the sign of `x`, and otherwise the exact
quotient. -/
def jsDivQ (x y : ℚ) : JSNum :=
  if y = 0 then
    if x = 0 then JSNum.nan
    else if 0 < x then JSNum.posInf
    else JSNum.negInf
  else JSNum.fin (x / y)

/-- JavaScript multiplication by the positive literal `100`:
infinities keep their sign, `NaN` stays `NaN`. -/
def jsMul100 : JSNum → JSNum
  | JSNum.nan => JSNum.nan
  | JSNum.posInf => JSNum.posInf
  | JSNum.negInf => JSNum.negInf
  | JSNum.fin q => JSNum.fin (q * 100)

/-- JavaScript `Math.min(100, v)`: `NaN` propagates, `+Infinity` is beaten
by `100`, `-Infinity` wins. -/
def jsMin100 : JSNum → JSNum
  | JSNum.nan => JSNum.nan
  | JSNum.posInf => JSNum.fin 100
  | JSNum.negInf => JSNum.negInf
  | JSNum.fin q => JSNum.fin (min 100 q)

/-- JavaScript `Math.max(0, v)`: `NaN` propagates, `-Infinity` is beaten
by `0`, `+Infinity` wins. -/
def jsMax0 : JSNum → JSNum
  | JSNum.nan => JSNum.nan
  | JSNum.posInf => JSNum.posInf
  | JSNum.negInf => JSNum.fin 0
  | JSNum.fin q => JSNum.fin (max 0 q)

/-- The body of the `requestAnimationFrame` callback of
`updateSliderPosition` (image-slider.tsx lines 37-39):
`const x = clientX - rect.left;`
`const percentage = Math.max(0, Math.min(100, (x / rect.width) * 100));`
with the measured rectangle having left edge `L` and width `W`. -/
def computePercentage (L W clientX : ℚ) : JSNum :=
  jsMax0 (jsMin100 (jsMul100 (jsDivQ (clientX - L) W)))

/-- The clamp formula of the spec, `clamp(((clientX - L) / W) * 100, 0, 100)`,
in exact rational arithmetic. -/
def clampQ (q : ℚ) : ℚ := max 0 (min 100 q)

/-- With a non-zero width the code's percentage computation is exactly the
spec's clamp formula. -/
theorem computePercentage_eq_clamp (L W clientX : ℚ) (hW : W ≠ 0) :
    computePercentage L W clientX = JSNum.fin (clampQ ((clientX - L) / W * 100)) := by
  simp [computePercentage, jsDivQ, jsMul100, jsMin100, jsMax0, clampQ, hW]

/-- The clamp formula always lands in `[0, 100]`. -/
theorem clampQ_mem (q : ℚ) : 0 ≤ clampQ q ∧ clampQ q ≤ 100 := by
  refine ⟨le_max_left _ _, ?_⟩
  exact max_le (by norm_num) (min_le_left _ _)

/-- The observable state of an `ImageSlider` instance:
the React state hooks (`sliderPosition`, `isDragging`, `isHovering`), the
pending `requestAnimationFrame` callback (`animationFrameRef`, which closes
over the `clientX` it was scheduled with), whether the global
`mousemove`/`mouseup` listeners are currently attached to `document`,
the two `document.body` style mutations made while dragging, whether the
component is mounted (`containerRef.current` non-null), and a count of the
`setSliderPosition` calls that have been applied. -/
structure SliderState where
  sliderPosition : JSNum
  isDragging : Bool
  isHovering : Bool
  pendingFrame : Option ℚ
  listenersAttached : Bool
  bodyUserSelectNone : Bool
  bodyCursorColResize : Bool
  mounted : Bool
  appliedUpdates : ℕ
deriving DecidableEq

/-- State right after mount: `useState(50)`, not dragging, not hovering,
no pending frame, no global listeners, default body styles. -/
def initialState : SliderState :=
  { sliderPosition := JSNum.fin 50
    isDragging := false
    isHovering := false
    pendingFrame := none
    listenersAttached := false
    bodyUserSelectNone := false
    bodyCursorColResize := false
    mounted := true
    appliedUpdates := 0 }

/-- The function `updateSliderPosition(clientX)` (lines 25-43): bail out when unmounted
(`containerRef.current` null), otherwise cancel any previously scheduled
animation frame and schedule a new one capturing `clientX`.  The position
itself is only written when the frame later fires. -/
def updateSliderPosition (clientX : ℚ) (s : SliderState) : SliderState :=
  if s.mounted = false then s
  else { s with pendingFrame := some clientX }

/-- The scheduled animation-frame callback firing, with the container's
bounding rectangle measured at fire time as left edge `L`, width `W`.
If no frame is pending nothing happens; the callback itself returns early
when the component has unmounted (`containerRef.current` null). -/
def fireFrame (L W : ℚ) (s : SliderState) : SliderState :=
  match s.pendingFrame with
  | none => s
  | some clientX =>
    if s.mounted = false then { s with pendingFrame := none }
    else
      { s with
        pendingFrame := none
        sliderPosition := computePercentage L W clientX
        appliedUpdates := s.appliedUpdates + 1 }

/-- Re-running the `[isDragging]` effect after a state change (lines 64-89):
the cleanup removes the global listeners and restores
`document.body.style.userSelect` / `.cursor`, and the effect body re-adds
the listeners and re-applies the styles exactly when `isDragging` is true.
Net result: listeners and body styles track `isDragging`. -/
def syncEffects (s : SliderState) : SliderState :=
  { s with
    listenersAttached := s.isDragging
    bodyUserSelectNone := s.isDragging
    bodyCursorColResize := s.isDragging }

/-- The input events the component can receive.  `pressTrack` is a
mouse-down/touch-start on the container/track: the container element
(lines 101-117) registers no `onMouseDown`/`onTouchStart` handler, so that
event reaches no code of the component. -/
inductive Event where
  | mouseDownHandle : Event
  | touchStartHandle : Event
  | pressTrack : Event
  | containerMouseMove : ℚ → Event
  | containerTouchMove : ℚ → Event
  | containerMouseUp : Event
  | containerTouchEnd : Event
  | containerClick : ℚ → Event
  | mouseEnter : Event
  | mouseLeave : Event
  | globalMouseMove : ℚ → Event
  | globalMouseUp : Event
  | frameFire : ℚ → ℚ → Event
  | unmount : Event
deriving DecidableEq

/-- One event step of the component.  Events on an unmounted component are
no-ops (the DOM element and its handlers no longer exist, the global
listeners and the pending frame were removed by the unmount cleanups).
Each branch mirrors the corresponding handler in image-slider.tsx:
handle `onMouseDown`/`onTouchStart` (175-182) set `isDragging := true`;
`handleMouseMove`/`handleTouchMove` (45-55) forward to
`updateSliderPosition` only while dragging; container `onMouseUp`/
`onTouchEnd` (109, 111) and the global `mouseup` (72-74) clear
`isDragging`; `handleClick` (57-61) forwards to `updateSliderPosition`
when not dragging; `onMouseEnter`/`onMouseLeave` (113-117) set hovering,
with `onMouseLeave` also clearing `isDragging`; the global `mousemove`
(65-70) forwards to `updateSliderPosition` while its captured `isDragging`
is true; unmount runs the effect cleanups (83-88 and 92-98). -/
def step (e : Event) (s : SliderState) : SliderState :=
  if s.mounted = false then s
  else
    match e with
    | Event.mouseDownHandle => syncEffects { s with isDragging := true }
    | Event.touchStartHandle => syncEffects { s with isDragging := true }
    | Event.pressTrack => s
    | Event.containerMouseMove x =>
        if s.isDragging then updateSliderPosition x s else s
    | Event.containerTouchMove x =>
        if s.isDragging then updateSliderPosition x s else s
    | Event.containerMouseUp => syncEffects { s with isDragging := false }
    | Event.containerTouchEnd => syncEffects { s with isDragging := false }
    | Event.containerClick x =>
        if s.isDragging then s else updateSliderPosition x s
    | Event.mouseEnter => { s with isHovering := true }
    | Event.mouseLeave => syncEffects { s with isDragging := false, isHovering := false }
    | Event.globalMouseMove x =>
        if s.listenersAttached && s.isDragging then updateSliderPosition x s else s
    | Event.globalMouseUp =>
        if s.listenersAttached then syncEffects { s with isDragging := false } else s
    | Event.frameFire L W => fireFrame L W s
    | Event.unmount =>
        { s with
          mounted := false
          pendingFrame := none
          listenersAttached := false
          bodyUserSelectNone := false
          bodyCursorColResize := false }

/-- The spec's interaction phase, as a projection of the two boolean
state hooks. -/
inductive Phase where
  | Idle : Phase
  | Hovering : Phase
  | Dragging : Phase
deriving DecidableEq

/-- Phase projection: dragging dominates, then hovering, else idle. -/
def phase (s : SliderState) : Phase :=
  if s.isDragging then Phase.Dragging
  else if s.isHovering then Phase.Hovering
  else Phase.Idle

/-- Evaluating the scheduled recompute: calling `updateSliderPosition` on a
mounted state and letting the frame fire with rectangle `(L, W)` sets the
position to the code's percentage computation. -/
theorem fireFrame_update (s : SliderState) (L W clientX : ℚ) (hm : s.mounted = true) :
    (fireFrame L W (updateSliderPosition clientX s)).sliderPosition
      = computePercentage L W clientX := by
  simp [updateSliderPosition, fireFrame, hm]

/-- Claim C1, against the code: with a zero-width bounding rectangle the
scheduled recompute is NOT skipped.  At `clientX = rect.left` the code
computes `(0/0)*100 = NaN`, `Math.min`/`Math.max` propagate it, and the
update is applied, setting `sliderPosition` to the non-numeric `NaN`
instead of retaining the previous value `50`; at a `clientX` to the right
of the left edge the update is applied as well and moves the position to
`100`.  There is no zero-width guard in `updateSliderPosition`
(image-slider.tsx lines 34-42). -/
theorem zeroWidth_update_not_skipped :
    (fireFrame 0 0 (updateSliderPosition 0 initialState)).sliderPosition = JSNum.nan
    ∧ (fireFrame 0 0 (updateSliderPosition 0 initialState)).appliedUpdates = 1
    ∧ (fireFrame 0 0 (updateSliderPosition 5 initialState)).sliderPosition = JSNum.fin 100
    ∧ initialState.sliderPosition = JSNum.fin 50 := by
  refine ⟨?_, by decide, ?_, rfl⟩ <;>
    norm_num [fireFrame, updateSliderPosition, initialState, computePercentage,
      jsDivQ, jsMul100, jsMin100, jsMax0]

/-- Claim C2: on a mounted widget with a bounding rectangle of positive
width `W` and left edge `L`, letting the recompute scheduled by
`updatePosition(clientX)` run sets the position to
`clamp(((clientX - L) / W) * 100, 0, 100)`; in particular `clientX = L`
yields `0`, `clientX = L + W` yields `100`, `clientX = L + W/2` yields
`50`, and for every `clientX` the resulting position is a finite value in
`[0, 100]`. -/
theorem updatePosition_correct (s : SliderState) (L W clientX : ℚ)
    (hm : s.mounted = true) (hW : 0 < W) :
    (fireFrame L W (updateSliderPosition clientX s)).sliderPosition
        = JSNum.fin (clampQ ((clientX - L) / W * 100))
    ∧ (fireFrame L W (updateSliderPosition L s)).sliderPosition = JSNum.fin 0
    ∧ (fireFrame L W (updateSliderPosition (L + W) s)).sliderPosition = JSNum.fin 100
    ∧ (fireFrame L W (updateSliderPosition (L + W / 2) s)).sliderPosition = JSNum.fin 50
    ∧ ∃ p : ℚ, (fireFrame L W (updateSliderPosition clientX s)).sliderPosition = JSNum.fin p
        ∧ 0 ≤ p ∧ p ≤ 100 := by
  have hW0 : W ≠ 0 := ne_of_gt hW
  have hbase : ∀ c : ℚ, (fireFrame L W (updateSliderPosition c s)).sliderPosition
      = JSNum.fin (clampQ ((c - L) / W * 100)) := by
    intro c
    rw [fireFrame_update s L W c hm, computePercentage_eq_clamp L W c hW0]
  refine ⟨hbase clientX, ?_, ?_, ?_,
    ⟨clampQ ((clientX - L) / W * 100), hbase clientX,
      (clampQ_mem _).1, (clampQ_mem _).2⟩⟩
  · rw [hbase L]
    norm_num [clampQ, min_def, max_def]
  · rw [hbase (L + W)]
    have h1 : (L + W - L) / W = 1 := by
      rw [add_sub_cancel_left, div_self hW0]
    rw [h1]
    norm_num [clampQ, min_def, max_def]
  · rw [hbase (L + W / 2)]
    have h2 : (L + W / 2 - L) / W = 1 / 2 := by
      rw [add_sub_cancel_left]
      field_simp
      ring
    rw [h2]
    norm_num [clampQ, min_def, max_def]

/-- Witness for C2: concrete mounted state, rectangle `L = 0`, `W = 200`,
`clientX = 300` (far to the right of the container). -/
theorem updatePosition_correct_witness :
    (initialState.mounted = true ∧ (0 : ℚ) < 200)
    ∧ ((fireFrame 0 200 (updateSliderPosition 300 initialState)).sliderPosition
          = JSNum.fin (clampQ ((300 - 0) / 200 * 100))
      ∧ (fireFrame 0 200 (updateSliderPosition 0 initialState)).sliderPosition = JSNum.fin 0
      ∧ (fireFrame 0 200 (updateSliderPosition (0 + 200) initialState)).sliderPosition
          = JSNum.fin 100
      ∧ (fireFrame 0 200 (updateSliderPosition (0 + 200 / 2) initialState)).sliderPosition
          = JSNum.fin 50
      ∧ ∃ p : ℚ, (fireFrame 0 200 (updateSliderPosition 300 initialState)).sliderPosition
            = JSNum.fin p ∧ 0 ≤ p ∧ p ≤ 100) :=
  ⟨⟨rfl, by norm_num⟩, updatePosition_correct initialState 0 200 300 rfl (by norm_num)⟩

/-- A burst of `updateSliderPosition` calls on a mounted state does nothing
but overwrite the pending frame with the last coordinate of the burst:
each call cancels the previously scheduled frame and replaces it. -/
theorem foldl_update_eq (xs : List ℚ) (s : SliderState) (c : ℚ)
    (hm : s.mounted = true) (hc : xs.getLast? = some c) :
    xs.foldl (fun t x => updateSliderPosition x t) s
      = { s with pendingFrame := some c } := by
  induction xs generalizing s with
  | nil => simp at hc
  | cons x xs ih =>
    cases xs with
    | nil =>
      simp only [List.getLast?_singleton, Option.some.injEq] at hc
      subst hc
      simp [updateSliderPosition, hm]
    | cons y ys =>
      have h1 : updateSliderPosition x s = { s with pendingFrame := some x } := by
        simp [updateSliderPosition, hm]
      have hc2 : (y :: ys).getLast? = some c := by
        rwa [List.getLast?_cons_cons] at hc
      rw [List.foldl_cons, h1, ih { s with pendingFrame := some x } hm hc2]

/-- Claim C3: a nonempty sequence of `updatePosition` calls within one frame
interval (last coordinate `c`) leaves the position and the applied-update
count untouched while it runs, keeps exactly one pending recompute holding
`c`, and when the frame fires exactly one state update is applied, equal to
the value computed from the last call's coordinate; a second frame tick
applies nothing further. -/
theorem coalescing_one_update_per_frame (s : SliderState) (xs : List ℚ) (c L W : ℚ)
    (hm : s.mounted = true) (hc : xs.getLast? = some c) :
    (xs.foldl (fun t x => updateSliderPosition x t) s).pendingFrame = some c
    ∧ (xs.foldl (fun t x => updateSliderPosition x t) s).sliderPosition = s.sliderPosition
    ∧ (xs.foldl (fun t x => updateSliderPosition x t) s).appliedUpdates = s.appliedUpdates
    ∧ (fireFrame L W (xs.foldl (fun t x => updateSliderPosition x t) s)).appliedUpdates
        = s.appliedUpdates + 1
    ∧ (fireFrame L W (xs.foldl (fun t x => updateSliderPosition x t) s)).sliderPosition
        = computePercentage L W c
    ∧ (fireFrame L W (fireFrame L W
        (xs.foldl (fun t x => updateSliderPosition x t) s))).appliedUpdates
        = s.appliedUpdates + 1 := by
  rw [foldl_update_eq xs s c hm hc]
  refine ⟨rfl, rfl, rfl, ?_, ?_, ?_⟩ <;> simp [fireFrame, hm]

/-- Witness for C3: the burst `[10, 20, 30]` against a mounted state with
rectangle `L = 0`, `W = 100`. -/
theorem coalescing_one_update_per_frame_witness :
    (initialState.mounted = true ∧ ([10, 20, 30] : List ℚ).getLast? = some 30)
    ∧ (([10, 20, 30] : List ℚ).foldl (fun t x => updateSliderPosition x t) initialState).pendingFrame
        = some 30
    ∧ (([10, 20, 30] : List ℚ).foldl (fun t x => updateSliderPosition x t) initialState).sliderPosition
        = initialState.sliderPosition
    ∧ (([10, 20, 30] : List ℚ).foldl (fun t x => updateSliderPosition x t) initialState).appliedUpdates
        = initialState.appliedUpdates
    ∧ (fireFrame 0 100 (([10, 20, 30] : List ℚ).foldl (fun t x => updateSliderPosition x t)
        initialState)).appliedUpdates = initialState.appliedUpdates + 1
    ∧ (fireFrame 0 100 (([10, 20, 30] : List ℚ).foldl (fun t x => updateSliderPosition x t)
        initialState)).sliderPosition = computePercentage 0 100 30
    ∧ (fireFrame 0 100 (fireFrame 0 100 (([10, 20, 30] : List ℚ).foldl
        (fun t x => updateSliderPosition x t) initialState))).appliedUpdates
        = initialState.appliedUpdates + 1 :=
  ⟨⟨rfl, by decide⟩,
    coalescing_one_update_per_frame initialState [10, 20, 30] 30 0 100 rfl (by decide)⟩

/-- Claim C4, counterexample: start a drag from the initial state by
pressing the handle (phase becomes Dragging), then let the pointer leave
the widget bounds while the press is still held.  The claim says the phase
remains Dragging; the code's `onMouseLeave` handler (lines 114-117) calls
`setIsDragging(false)`, so the phase is no longer Dragging. -/
theorem mouseLeave_counterexample :
    phase (step Event.mouseDownHandle initialState) = Phase.Dragging
    ∧ phase (step Event.mouseLeave (step Event.mouseDownHandle initialState))
        ≠ Phase.Dragging := by
  constructor <;> decide

/-- Claim C4, amended: while Dragging, the pointer leaving the widget's
bounds ends the drag even though the press is still held: `onMouseLeave`
sets both `isDragging` and `isHovering` to false, so the phase becomes
Idle, and the effect cleanup removes the global listeners and restores the
body styles. -/
theorem mouseLeave_ends_drag (s : SliderState)
    (hm : s.mounted = true) (hd : s.isDragging = true) :
    phase (step Event.mouseLeave s) = Phase.Idle
    ∧ (step Event.mouseLeave s).isDragging = false
    ∧ (step Event.mouseLeave s).isHovering = false
    ∧ (step Event.mouseLeave s).listenersAttached = false
    ∧ (step Event.mouseLeave s).bodyUserSelectNone = false
    ∧ (step Event.mouseLeave s).bodyCursorColResize = false := by
  have := hd
  simp [step, syncEffects, phase, hm]

/-- Witness for the amended C4: the dragging state reached by pressing the
handle from the initial state. -/
theorem mouseLeave_ends_drag_witness :
    ((step Event.mouseDownHandle initialState).mounted = true
      ∧ (step Event.mouseDownHandle initialState).isDragging = true)
    ∧ phase (step Event.mouseLeave (step Event.mouseDownHandle initialState)) = Phase.Idle
    ∧ (step Event.mouseLeave (step Event.mouseDownHandle initialState)).isDragging = false
    ∧ (step Event.mouseLeave (step Event.mouseDownHandle initialState)).isHovering = false
    ∧ (step Event.mouseLeave (step Event.mouseDownHandle initialState)).listenersAttached = false
    ∧ (step Event.mouseLeave (step Event.mouseDownHandle initialState)).bodyUserSelectNone = false
    ∧ (step Event.mouseLeave (step Event.mouseDownHandle initialState)).bodyCursorColResize
        = false :=
  ⟨⟨by decide, by decide⟩,
    mouseLeave_ends_drag (step Event.mouseDownHandle initialState) (by decide) (by decide)⟩

/-- Claim C5, counterexample: a press (mouse-down/touch-start) on the track
while phase is Idle.  The claim says the machine transitions to Dragging
and disables text selection; the container/track element registers no
`onMouseDown`/`onTouchStart` handler (only the handle does, lines
175-182), so the press leaves the state untouched: the phase stays Idle
and text selection stays enabled. -/
theorem pressTrack_counterexample :
    phase (step Event.pressTrack initialState) ≠ Phase.Dragging
    ∧ (step Event.pressTrack initialState).bodyUserSelectNone = false
    ∧ (step Event.pressTrack initialState).bodyCursorColResize = false := by
  refine ⟨by decide, by decide, by decide⟩

/-- Claim C5, amended: a press (mouse-down or touch-start) on the handle
while the phase is Idle or Hovering transitions the machine to Dragging,
disables text selection (`document.body.style.userSelect` set to none) and
sets the global `col-resize` cursor; a press on the track alone does not
enter Dragging. -/
theorem pressHandle_starts_drag (s : SliderState)
    (hm : s.mounted = true) (hd : s.isDragging = false) :
    phase (step Event.mouseDownHandle s) = Phase.Dragging
    ∧ (step Event.mouseDownHandle s).bodyUserSelectNone = true
    ∧ (step Event.mouseDownHandle s).bodyCursorColResize = true
    ∧ phase (step Event.touchStartHandle s) = Phase.Dragging
    ∧ (step Event.touchStartHandle s).bodyUserSelectNone = true
    ∧ (step Event.touchStartHandle s).bodyCursorColResize = true
    ∧ phase (step Event.pressTrack s) ≠ Phase.Dragging := by
  refine ⟨?_, ?_, ?_, ?_, ?_, ?_, ?_⟩ <;>
    simp [step, syncEffects, phase, hm, hd]
  cases s.isHovering <;> simp

/-- Witness for the amended C5: the initial (Idle) state. -/
theorem pressHandle_starts_drag_witness :
    (initialState.mounted = true ∧ initialState.isDragging = false)
    ∧ phase (step Event.mouseDownHandle initialState) = Phase.Dragging
    ∧ (step Event.mouseDownHandle initialState).bodyUserSelectNone = true
    ∧ (step Event.mouseDownHandle initialState).bodyCursorColResize = true
    ∧ phase (step Event.touchStartHandle initialState) = Phase.Dragging
    ∧ (step Event.touchStartHandle initialState).bodyUserSelectNone = true
    ∧ (step Event.touchStartHandle initialState).bodyCursorColResize = true
    ∧ phase (step Event.pressTrack initialState) ≠ Phase.Dragging :=
  ⟨⟨rfl, rfl⟩, pressHandle_starts_drag initialState rfl rfl⟩

/-- Claim C6: from a dragging state whose pointer has left the widget's
bounds (`isHovering = false`, as the release "anywhere" scenario has), the
document-level `mouseup` listener ends the drag: the phase returns to
Idle, the global listeners are removed, text selection and the cursor are
restored, and afterwards no pointer-movement event — global or
widget-local, mouse or touch — changes the position or schedules a
recompute. -/
theorem release_terminates_drag (s : SliderState) (hm : s.mounted = true)
    (hd : s.isDragging = true) (hl : s.listenersAttached = true)
    (hh : s.isHovering = false) :
    phase (step Event.globalMouseUp s) = Phase.Idle
    ∧ (step Event.globalMouseUp s).isDragging = false
    ∧ (step Event.globalMouseUp s).listenersAttached = false
    ∧ (step Event.globalMouseUp s).bodyUserSelectNone = false
    ∧ (step Event.globalMouseUp s).bodyCursorColResize = false
    ∧ (∀ x : ℚ, step (Event.globalMouseMove x) (step Event.globalMouseUp s)
        = step Event.globalMouseUp s)
    ∧ (∀ x : ℚ, step (Event.containerMouseMove x) (step Event.globalMouseUp s)
        = step Event.globalMouseUp s)
    ∧ (∀ x : ℚ, step (Event.containerTouchMove x) (step Event.globalMouseUp s)
        = step Event.globalMouseUp s) := by
  have := hd
  refine ⟨?_, ?_, ?_, ?_, ?_, ?_, ?_, ?_⟩ <;>
    simp [step, syncEffects, phase, hm, hl, hh]

/-- Witness for C6: the dragging state reached by a touch-start on the
handle (dragging, global listeners attached, not hovering). -/
theorem release_terminates_drag_witness :
    ((step Event.touchStartHandle initialState).mounted = true
      ∧ (step Event.touchStartHandle initialState).isDragging = true
      ∧ (step Event.touchStartHandle initialState).listenersAttached = true
      ∧ (step Event.touchStartHandle initialState).isHovering = false)
    ∧ phase (step Event.globalMouseUp (step Event.touchStartHandle initialState)) = Phase.Idle
    ∧ (step Event.globalMouseUp (step Event.touchStartHandle initialState)).isDragging = false
    ∧ (step Event.globalMouseUp (step Event.touchStartHandle initialState)).listenersAttached
        = false
    ∧ (step Event.globalMouseUp (step Event.touchStartHandle initialState)).bodyUserSelectNone
        = false
    ∧ (step Event.globalMouseUp (step Event.touchStartHandle initialState)).bodyCursorColResize
        = false
    ∧ (∀ x : ℚ, step (Event.globalMouseMove x)
        (step Event.globalMouseUp (step Event.touchStartHandle initialState))
        = step Event.globalMouseUp (step Event.touchStartHandle initialState))
    ∧ (∀ x : ℚ, step (Event.containerMouseMove x)
        (step Event.globalMouseUp (step Event.touchStartHandle initialState))
        = step Event.globalMouseUp (step Event.touchStartHandle initialState))
    ∧ (∀ x : ℚ, step (Event.containerTouchMove x)
        (step Event.globalMouseUp (step Event.touchStartHandle initialState))
        = step Event.globalMouseUp (step Event.touchStartHandle initialState)) :=
  ⟨⟨by decide, by decide, by decide, by decide⟩,
    release_terminates_drag (step Event.touchStartHandle initialState)
      (by decide) (by decide) (by decide) (by decide)⟩

/-- Claim C7, counterexample: a plain click at `clientX = 30` on the initial
(idle) state.  The claim says the plain-click path is not routed through
the per-frame coalescing scheduling; the code's `handleClick` (lines
57-61) calls the same rAF-scheduling `updateSliderPosition`, so the click
leaves a pending frame recompute holding `30` and applies no immediate
position change. -/
theorem click_counterexample :
    (step (Event.containerClick 30) initialState).pendingFrame = some 30
    ∧ (step (Event.containerClick 30) initialState).sliderPosition
        = initialState.sliderPosition
    ∧ (step (Event.containerClick 30) initialState).appliedUpdates
        = initialState.appliedUpdates := by
  refine ⟨by decide, by decide, by decide⟩

/-- Claim C7, amended: a plain click at `x` while not dragging updates the
position exactly once and with the same result as `updatePosition(x)` —
because it IS a call of `updatePosition(x)`, routed through the same
per-frame coalescing scheduling as drag moves: the click schedules one
frame recompute, does not enter Dragging, and when the frame fires the one
update sets the position to `clamp(((x - L) / W) * 100, 0, 100)`. -/
theorem click_updates_once (s : SliderState) (x L W : ℚ)
    (hm : s.mounted = true) (hd : s.isDragging = false) (hW : 0 < W) :
    phase (step (Event.containerClick x) s) ≠ Phase.Dragging
    ∧ (step (Event.containerClick x) s).isDragging = false
    ∧ (step (Event.containerClick x) s).pendingFrame = some x
    ∧ (step (Event.containerClick x) s).appliedUpdates = s.appliedUpdates
    ∧ (fireFrame L W (step (Event.containerClick x) s)).appliedUpdates
        = s.appliedUpdates + 1
    ∧ (fireFrame L W (step (Event.containerClick x) s)).sliderPosition
        = JSNum.fin (clampQ ((x - L) / W * 100)) := by
  have hstep : step (Event.containerClick x) s = { s with pendingFrame := some x } := by
    simp [step, updateSliderPosition, hm, hd]
  refine ⟨?_, ?_, ?_, ?_, ?_, ?_⟩
  · rw [hstep]
    simp only [phase]
    cases hs : s.isHovering <;> simp [hs, hd]
  · rw [hstep]; exact hd
  · rw [hstep]
  · rw [hstep]
  · rw [hstep]; simp [fireFrame, hm]
  · rw [hstep]
    simp [fireFrame, hm, computePercentage_eq_clamp L W x (ne_of_gt hW)]

/-- Witness for the amended C7: a click at `x = 30` on the initial state
with rectangle `L = 0`, `W = 120`. -/
theorem click_updates_once_witness :
    (initialState.mounted = true ∧ initialState.isDragging = false ∧ (0 : ℚ) < 120)
    ∧ phase (step (Event.containerClick 30) initialState) ≠ Phase.Dragging
    ∧ (step (Event.containerClick 30) initialState).isDragging = false
    ∧ (step (Event.containerClick 30) initialState).pendingFrame = some 30
    ∧ (step (Event.containerClick 30) initialState).appliedUpdates
        = initialState.appliedUpdates
    ∧ (fireFrame 0 120 (step (Event.containerClick 30) initialState)).appliedUpdates
        = initialState.appliedUpdates + 1
    ∧ (fireFrame 0 120 (step (Event.containerClick 30) initialState)).sliderPosition
        = JSNum.fin (clampQ ((30 - 0) / 120 * 100)) :=
  ⟨⟨rfl, rfl, by norm_num⟩,
    click_updates_once initialState 30 0 120 rfl rfl (by norm_num)⟩

/-- Events on an unmounted component are no-ops: the DOM element with its
handlers is gone, the unmount cleanups removed the global listeners and
cancelled the pending frame, and the frame callback itself bails out when
`containerRef.current` is null. -/
theorem step_unmounted (e : Event) (t : SliderState) (h : t.mounted = false) :
    step e t = t := by
  simp [step, h]

/-- Any sequence of events after unmount leaves the state fixed. -/
theorem foldl_step_unmounted (es : List Event) (t : SliderState) (h : t.mounted = false) :
    es.foldl (fun u e => step e u) t = t := by
  induction es with
  | nil => rfl
  | cons e es ih => rw [List.foldl_cons, step_unmounted e t h, ih]

/-- Claim C8: unmounting a mounted widget — in particular mid-drag —
cancels the pending frame recompute, removes the global listeners,
restores the body styles, and afterwards no sequence of events ever
changes the position again or applies a state update. -/
theorem unmount_cleanup (s : SliderState) (hm : s.mounted = true) :
    (step Event.unmount s).pendingFrame = none
    ∧ (step Event.unmount s).listenersAttached = false
    ∧ (step Event.unmount s).bodyUserSelectNone = false
    ∧ (step Event.unmount s).bodyCursorColResize = false
    ∧ ∀ es : List Event,
        (es.foldl (fun u e => step e u) (step Event.unmount s)).sliderPosition
            = s.sliderPosition
        ∧ (es.foldl (fun u e => step e u) (step Event.unmount s)).appliedUpdates
            = s.appliedUpdates := by
  have hstep : step Event.unmount s
      = { s with
            mounted := false
            pendingFrame := none
            listenersAttached := false
            bodyUserSelectNone := false
            bodyCursorColResize := false } := by
    simp [step, hm]
  refine ⟨?_, ?_, ?_, ?_, ?_⟩
  · rw [hstep]
  · rw [hstep]
  · rw [hstep]
  · rw [hstep]
  · intro es
    rw [hstep, foldl_step_unmounted es _ rfl]
    exact ⟨rfl, rfl⟩

/-- Witness for C8: unmount the mid-drag state reached by pressing the
handle on the initial state. -/
theorem unmount_cleanup_witness :
    (step Event.mouseDownHandle initialState).mounted = true
    ∧ (step Event.unmount (step Event.mouseDownHandle initialState)).pendingFrame = none
    ∧ (step Event.unmount (step Event.mouseDownHandle initialState)).listenersAttached = false
    ∧ (step Event.unmount (step Event.mouseDownHandle initialState)).bodyUserSelectNone = false
    ∧ (step Event.unmount (step Event.mouseDownHandle initialState)).bodyCursorColResize = false
    ∧ ∀ es : List Event,
        (es.foldl (fun u e => step e u)
            (step Event.unmount (step Event.mouseDownHandle initialState))).sliderPosition
          = (step Event.mouseDownHandle initialState).sliderPosition
        ∧ (es.foldl (fun u e => step e u)
            (step Event.unmount (step Event.mouseDownHandle initialState))).appliedUpdates
          = (step Event.mouseDownHandle initialState).appliedUpdates :=
  ⟨by decide, unmount_cleanup (step Event.mouseDownHandle initialState) (by decide)⟩

end ImageSliderSpec

namespace LazySectionSpec

/-- The two state hooks of `LazySection`
(`src/src/components/ui/LazySection.tsx` lines 18-19). -/
structure LazyState where
  isVisible : Bool
  hasLoaded : Bool
deriving DecidableEq

/-- Initial state: `useState(false)` twice. -/
def lazyInitialState : LazyState := { isVisible := false, hasLoaded := false }

/-- The `IntersectionObserver` callback (lines 24-30): only when the entry
is intersecting and the section has not loaded yet, mark it visible and
loaded (and disconnect the observer); otherwise do nothing. -/
def observerCallback (isIntersecting : Bool) (s : LazyState) : LazyState :=
  if isIntersecting && !s.hasLoaded then { isVisible := true, hasLoaded := true }
  else s

/-- The render projection (lines 41-45): the children render exactly when
`isVisible` is true; otherwise the placeholder/fallback renders. -/
def rendersChildren (s : LazyState) : Bool := s.isVisible

/-- The wrapper's `minHeight` style (line 42): auto (modelled `none`)
once visible, the fixed 200px before. -/
def placeholderMinHeight (s : LazyState) : Option ℚ :=
  if s.isVisible then none else some 200

/-- One observer callback never un-sets visibility. -/
theorem observerCallback_mono (b : Bool) (s : LazyState) (hv : s.isVisible = true) :
    (observerCallback b s).isVisible = true := by
  unfold observerCallback
  split
  · rfl
  · exact hv

/-- Claim C9: the lazy-mount wrapper initially renders the placeholder with
the fixed minimum height of 200px and not the children; the first
intersecting observer callback switches it to rendering the children; and
once visible it stays visible through any further sequence of visibility
changes — the children keep rendering and the placeholder min-height never
comes back. -/
theorem lazySection_renders_once (s : LazyState) (bs : List Bool)
    (hv : s.isVisible = true) :
    rendersChildren lazyInitialState = false
    ∧ placeholderMinHeight lazyInitialState = some 200
    ∧ rendersChildren (observerCallback true lazyInitialState) = true
    ∧ (bs.foldl (fun t b => observerCallback b t) s).isVisible = true
    ∧ rendersChildren (bs.foldl (fun t b => observerCallback b t) s) = true
    ∧ placeholderMinHeight (bs.foldl (fun t b => observerCallback b t) s) = none := by
  have hfold : ∀ (l : List Bool) (t : LazyState), t.isVisible = true →
      (l.foldl (fun u b => observerCallback b u) t).isVisible = true := by
    intro l
    induction l with
    | nil => intro t ht; exact ht
    | cons b l ih =>
      intro t ht
      rw [List.foldl_cons]
      exact ih _ (observerCallback_mono b t ht)
  refine ⟨rfl, rfl, rfl, hfold bs s hv, hfold bs s hv, ?_⟩
  simp [placeholderMinHeight, hfold bs s hv]

/-- Witness for C9: the state right after the first intersection, followed
by the section scrolling out and back in. -/
theorem lazySection_renders_once_witness :
    (observerCallback true lazyInitialState).isVisible = true
    ∧ rendersChildren lazyInitialState = false
    ∧ placeholderMinHeight lazyInitialState = some 200
    ∧ rendersChildren (observerCallback true lazyInitialState) = true
    ∧ (([false, true, false] : List Bool).foldl (fun t b => observerCallback b t)
        (observerCallback true lazyInitialState)).isVisible = true
    ∧ rendersChildren (([false, true, false] : List Bool).foldl (fun t b => observerCallback b t)
        (observerCallback true lazyInitialState)) = true
    ∧ placeholderMinHeight (([false, true, false] : List Bool).foldl
        (fun t b => observerCallback b t) (observerCallback true lazyInitialState)) = none :=
  ⟨by decide,
    lazySection_renders_once (observerCallback true lazyInitialState)
      [false, true, false] (by decide)⟩

end LazySectionSpec

namespace OptimizedImageSpec

/-- The two state hooks of `OptimizedImage` (image-slider.tsx second part,
lines 262-263). -/
structure ImageState where
  isLoaded : Bool
  hasError : Bool
deriving DecidableEq

/-- Initial state: `useState(false)` twice. -/
def imageInitialState : ImageState := { isLoaded := false, hasError := false }

/-- The handler `handleLoad` (lines 265-267): the load event marks the image loaded. -/
def handleLoad (s : ImageState) : ImageState := { s with isLoaded := true }

/-- The handler `handleError` (lines 269-272): the error event sets the error
flag AND marks the image loaded. -/
def handleError (s : ImageState) : ImageState :=
  { s with isLoaded := true, hasError := true }

/-- The rendered `src` attribute (line 286):
`hasError && fallback ? fallback : src`. -/
def renderedSrc (src : String) (fallback : Option String) (s : ImageState) : String :=
  match fallback with
  | some f => if s.hasError then f else src
  | none => src

/-- The loading placeholder renders exactly while `isLoaded` is false
(lines 279-283). -/
def showsLoadingPlaceholder (s : ImageState) : Bool := !s.isLoaded

/-- The `img` element's opacity class is `opacity-100` exactly when
`isLoaded` is true (line 297), else `opacity-0`. -/
def imageFullOpacity (s : ImageState) : Bool := s.isLoaded

/-- Claim C10: when the error event fires and no fallback was provided, the
component keeps the original `src` as the image source, dismisses the
loading placeholder (`isLoaded` is set by `handleError`), and displays the
broken image element at full opacity. -/
theorem error_without_fallback (src : String) (s : ImageState) :
    renderedSrc src none (handleError s) = src
    ∧ (handleError s).isLoaded = true
    ∧ (handleError s).hasError = true
    ∧ showsLoadingPlaceholder (handleError s) = false
    ∧ imageFullOpacity (handleError s) = true := by
  refine ⟨rfl, rfl, rfl, rfl, rfl⟩

end OptimizedImageSpec
